import Mathlib

/-! EffectHalHidl: client side of the remote audio-effect protocol

A shallow embedding of `media/libaudiohal/impl/EffectHalHidl.cpp`.

* The session object is the record `EffectHalHidl`; pointers are natural
  numbers with `0` standing for `nullptr`.
* Buffer objects live in a heap `Nat → EffectBuffer`, because the caller and
  the session share them by reference.
* Everything the remote side, the event flag and the status queue answer is
  supplied by an environment record (`ProcEnv`, `CmdEnv`); every call made to
  them is appended to a trace of `Event`s.
* The `goto retry` loop consumes a finite script of wait results; when the
  script is exhausted the call is still blocked in `wait` (`Outcome.blocked`).
-/

namespace AudioHal

/-! ## Constants of the platform ABI -/

/-- Result codes reported by the remote effect (HAL `enum Result`). -/
inductive Result where
  | OK
  | NOT_INITIALIZED
  | INVALID_ARGUMENTS
  | INVALID_STATE
  | NOT_SUPPORTED
  | RESULT_TOO_BIG
deriving DecidableEq, Repr

/-- The `status_t` success code. -/
def OK : Int := 0
/-- The `status_t` code `NO_INIT` (`-ENODEV`). -/
def NO_INIT : Int := -19
/-- The `status_t` code `BAD_VALUE` (`-EINVAL`). -/
def BAD_VALUE : Int := -22
/-- The `status_t` code `FAILED_TRANSACTION` (`UNKNOWN_ERROR + 2`). -/
def FAILED_TRANSACTION : Int := -2147483646
/-- The `status_t` code `NOT_ENOUGH_DATA` (`-ENODATA`). -/
def NOT_ENOUGH_DATA : Int := -61
/-- The `status_t` code `INVALID_OPERATION` (`-ENOSYS`). -/
def INVALID_OPERATION : Int := -38
/-- The `status_t` code `NO_MEMORY` (`-ENOMEM`). -/
def NO_MEMORY : Int := -12
/-- The errno value `EAGAIN`. -/
def EAGAIN : Int := 11
/-- The errno value `EINTR`. -/
def EINTR : Int := 4

/-- Event flag bit `MessageQueueFlagBits::DONE_PROCESSING`. -/
def DONE_PROCESSING : Nat := 1
/-- Event flag bit `MessageQueueFlagBits::REQUEST_PROCESS`. -/
def REQUEST_PROCESS : Nat := 2
/-- Event flag bit `MessageQueueFlagBits::REQUEST_PROCESS_REVERSE`. -/
def REQUEST_PROCESS_REVERSE : Nat := 4

/-- Command code `EFFECT_CMD_SET_CONFIG`. -/
def EFFECT_CMD_SET_CONFIG : Nat := 1
/-- Command code `EFFECT_CMD_SET_CONFIG_REVERSE`. -/
def EFFECT_CMD_SET_CONFIG_REVERSE : Nat := 12
/-- Command code `EFFECT_CMD_GET_CONFIG`. -/
def EFFECT_CMD_GET_CONFIG : Nat := 14
/-- Command code `EFFECT_CMD_GET_CONFIG_REVERSE`. -/
def EFFECT_CMD_GET_CONFIG_REVERSE : Nat := 15

/-- The value of `sizeof(int32_t)`. -/
def sizeofInt32 : Nat := 4

/-- Collaborators of the file that are declared elsewhere: the shared result
translation `analyzeResult`, the size of `effect_config_t`, and the two
configuration conversions of `EffectUtils`. They are parameters of the model. -/
structure Platform where
  analyzeResult : Result → Int
  sizeofEffectConfig : Nat
  effectConfigFromHal : List Nat → Bool → List Nat
  effectConfigToHal : List Nat → List Nat

/-- Modelled from the spec: the shared result-translation rule
(`EffectConversionHelperHidl::analyzeResult`, declared outside this file). The
spec fixes that remote success is local success and that every remote failure is
a local non-success code; the codes below are the conventional ones. It is used
only to instantiate `Platform` at concrete inputs. -/
def analyzeResult : Result → Int
  | .OK => OK
  | .INVALID_ARGUMENTS => BAD_VALUE
  | .INVALID_STATE => NOT_ENOUGH_DATA
  | .NOT_INITIALIZED => NO_INIT
  | .NOT_SUPPORTED => INVALID_OPERATION
  | .RESULT_TOO_BIG => NO_MEMORY

/-- A concrete platform: the translation above, a 64-byte configuration
structure (the size used in the spec's example) and byte-identity conversions. -/
def samplePlatform : Platform where
  analyzeResult := analyzeResult
  sizeofEffectConfig := 64
  effectConfigFromHal := fun bytes _ => bytes
  effectConfigToHal := fun cfg => cfg

/-! ## Data model -/

/-- One `EffectBufferHalInterface` object: the address `audioBuffer()` returns,
its frame count, and the pending frame-count-change mark. -/
structure EffectBuffer where
  audioBuffer : Nat
  frameCount : Nat
  frameCountChanged : Bool
deriving DecidableEq, Repr

/-- The buffer objects, by address. -/
abbrev Heap := Nat → EffectBuffer

/-- The fields of an `EffectHalHidl` object. `mEffect`, `mStatusMQ` and
`mEfGroup` record whether the pointer is non-null; `mInBuffer` and `mOutBuffer`
are addresses into the heap, `0` for `nullptr`. -/
structure EffectHalHidl where
  mEffect : Bool
  mInBuffer : Nat
  mOutBuffer : Nat
  mBuffersChanged : Bool
  mStatusMQ : Bool
  mEfGroup : Bool
  mIsInput : Bool
deriving DecidableEq, Repr

/-- Calls that leave the session object. -/
inductive Event where
  | prepareForProcessing
  | setProcessBuffers (inBuffer outBuffer : Nat)
  | fenceRelease
  | wake (bits : Nat)
  | wait (bits : Nat)
  | waitReturn (ret : Int) (efState : Nat)
  | mqRead
  | fenceAcquire
  | command (cmdCode : Nat) (data : List Nat) (maxReplySize : Nat)
  | getConfig
  | getConfigReverse
  | setConfig (config : List Nat)
  | setConfigReverse (config : List Nat)
  | close
deriving DecidableEq, Repr

/-- How a processing call ends: it returns a status, it is still blocked in
`EventFlag::wait` when the scripted wait results are used up, or it dereferences
a null `mEfGroup` / `mStatusMQ`. -/
inductive Outcome where
  | returned (status : Int)
  | blocked
  | fault
deriving DecidableEq, Repr

/-- What the remote `prepareForProcessing` call and the local event-flag
creation yield: a transport failure, or the callback arguments (the result, and
for the queue descriptor whether the queue is valid, whether it has an event
flag word, and whether `createEventFlag` produces a flag). -/
inductive PrepareReply where
  | transportError
  | reply (r : Result) (mqValid hasFlagWord createOk : Bool)
deriving DecidableEq, Repr

/-- One return of `EventFlag::wait`: the return code and the value of `efState`
after the call. -/
structure WaitResult where
  ret : Int
  efState : Nat
deriving DecidableEq, Repr

/-- What the collaborators answer during one `process` / `processReverse`
call. `push` is the `Return<Result>` of `setProcessBuffers` (`none` is a
transport failure); `status` is what `StatusMQ::read` stores (`none`: nothing
stored). -/
structure ProcEnv where
  prepare : PrepareReply
  push : Option Result
  waits : List WaitResult
  status : Option Result

/-- Status, new session state and trace of a helper call. -/
structure StepResult where
  status : Int
  state : EffectHalHidl
  trace : List Event

/-- Outcome, new session state, new heap and trace of a processing call. -/
structure ProcResult where
  outcome : Outcome
  state : EffectHalHidl
  heap : Heap
  trace : List Event

/-! ## Construction and buffer binding -/

/-- The constructor: `mBuffersChanged(true)`, `mEfGroup(nullptr)`, no buffers,
no status queue. -/
def EffectHalHidl.create (effect isInput : Bool) : EffectHalHidl where
  mEffect := effect
  mInBuffer := 0
  mOutBuffer := 0
  mBuffersChanged := true
  mStatusMQ := false
  mEfGroup := false
  mIsInput := isInput

/-- The method `EffectHalHidl::setInBuffer`. -/
def setInBuffer (s : EffectHalHidl) (h : Heap) (buffer : Nat) : Int × EffectHalHidl :=
  let changed : Bool :=
    if s.mBuffersChanged = false then
      if buffer = 0 ∨ s.mInBuffer = 0 then decide (buffer ≠ s.mInBuffer)
      else decide ((h buffer).audioBuffer ≠ (h s.mInBuffer).audioBuffer)
    else s.mBuffersChanged
  (OK, { s with mBuffersChanged := changed, mInBuffer := buffer })

/-- The method `EffectHalHidl::setOutBuffer`. -/
def setOutBuffer (s : EffectHalHidl) (h : Heap) (buffer : Nat) : Int × EffectHalHidl :=
  let changed : Bool :=
    if s.mBuffersChanged = false then
      if buffer = 0 ∨ s.mOutBuffer = 0 then decide (buffer ≠ s.mOutBuffer)
      else decide ((h buffer).audioBuffer ≠ (h s.mOutBuffer).audioBuffer)
    else s.mBuffersChanged
  (OK, { s with mBuffersChanged := changed, mOutBuffer := buffer })

/-- Modelled from the spec: `EffectBufferHalInterface::setFrameCount`, declared
outside this file. It stores the new frame count and marks the change as
pending. -/
def setFrameCount (h : Heap) (p n : Nat) : Heap :=
  Function.update h p { h p with frameCount := n, frameCountChanged := true }

/-- Modelled from the spec: `EffectBufferHalInterface::checkFrameCountChange`,
declared outside this file. It reports a pending frame-count change and
consumes it. -/
def checkFrameCountChange (h : Heap) (p : Nat) : Bool × Heap :=
  ((h p).frameCountChanged, Function.update h p { h p with frameCountChanged := false })

/-! ## Processing -/

/-- The method `EffectHalHidl::prepareForProcessing`. -/
def prepareForProcessing (P : Platform) (s : EffectHalHidl) : PrepareReply → StepResult
  | .transportError => ⟨FAILED_TRANSACTION, s, [.prepareForProcessing]⟩
  | .reply r mqValid hasFlagWord createOk =>
    if r ≠ .OK then ⟨P.analyzeResult r, s, [.prepareForProcessing]⟩
    else
      let s1 : EffectHalHidl :=
        if mqValid = true ∧ hasFlagWord = true then { s with mEfGroup := createOk } else s
      if mqValid = false ∨ s1.mEfGroup = false then ⟨NO_INIT, s1, [.prepareForProcessing]⟩
      else ⟨OK, { s1 with mStatusMQ := true }, [.prepareForProcessing]⟩

/-- The method `EffectHalHidl::needToResetBuffers`. -/
def needToResetBuffers (s : EffectHalHidl) (h : Heap) : Bool × Heap :=
  if s.mBuffersChanged = true then (true, h)
  else
    let a := checkFrameCountChange h s.mInBuffer
    let b := checkFrameCountChange a.2 s.mOutBuffer
    (a.1 || b.1, b.2)

/-- The method `EffectHalHidl::setProcessBuffers`. -/
def setProcessBuffers (P : Platform) (s : EffectHalHidl) : Option Result → StepResult
  | some .OK =>
    ⟨OK, { s with mBuffersChanged := false }, [.setProcessBuffers s.mInBuffer s.mOutBuffer]⟩
  | some r => ⟨P.analyzeResult r, s, [.setProcessBuffers s.mInBuffer s.mOutBuffer]⟩
  | none => ⟨FAILED_TRANSACTION, s, [.setProcessBuffers s.mInBuffer s.mOutBuffer]⟩

/-- The `retry:` loop of `processImpl` (source lines 153 to 170) over the scripted
wait results; `mq` says whether `mStatusMQ` is non-null. -/
def waitLoop (P : Platform) (mq : Bool) (status : Option Result) :
    List WaitResult → Outcome × List Event
  | [] => (.blocked, [.wait DONE_PROCESSING])
  | w :: ws =>
    if w.efState &&& DONE_PROCESSING ≠ 0 then
      if mq = true then
        let retval : Result := status.getD .NOT_INITIALIZED
        (.returned (P.analyzeResult retval),
          [.wait DONE_PROCESSING, .waitReturn w.ret w.efState, .mqRead] ++
            (if retval = .OK ∨ retval = .INVALID_STATE then [.fenceAcquire] else []))
      else (.fault, [.wait DONE_PROCESSING, .waitReturn w.ret w.efState])
    else if w.ret = -EAGAIN ∨ w.ret = -EINTR then
      let r := waitLoop P mq status ws
      (r.1, .wait DONE_PROCESSING :: .waitReturn w.ret w.efState :: r.2)
    else (.returned w.ret, [.wait DONE_PROCESSING, .waitReturn w.ret w.efState])

/-- Status, new session state, new heap and trace of the buffer-refresh step. -/
structure RefreshResult where
  status : Int
  state : EffectHalHidl
  heap : Heap
  trace : List Event

/-- Source line 144 of `processImpl`, `!mStatusMQ && (status =
prepareForProcessing()) != OK`: the setup is run only when `mStatusMQ` is null. -/
def establish (P : Platform) (s : EffectHalHidl) (env : ProcEnv) : StepResult :=
  if s.mStatusMQ = false then prepareForProcessing P s env.prepare else ⟨OK, s, []⟩

/-- Source line 147 of `processImpl`, `needToResetBuffers() && (status =
setProcessBuffers()) != OK`: the push is run only when a reset is needed. -/
def refresh (P : Platform) (s : EffectHalHidl) (h : Heap) (env : ProcEnv) : RefreshResult :=
  if (needToResetBuffers s h).1 = true then
    ⟨(setProcessBuffers P s env.push).status, (setProcessBuffers P s env.push).state,
      (needToResetBuffers s h).2, (setProcessBuffers P s env.push).trace⟩
  else ⟨OK, s, (needToResetBuffers s h).2, []⟩

/-- Source lines 150 to 171 of `processImpl`: release fence, `mEfGroup->wake(mqFlag)`
and the wait loop. -/
def handshake (P : Platform) (mqFlag : Nat) (s : EffectHalHidl) (env : ProcEnv) :
    Outcome × List Event :=
  if s.mEfGroup = false then (.fault, [.fenceRelease])
  else
    ((waitLoop P s.mStatusMQ env.status env.waits).1,
      .fenceRelease :: .wake mqFlag :: (waitLoop P s.mStatusMQ env.status env.waits).2)

/-- The method `EffectHalHidl::processImpl`. -/
def processImpl (P : Platform) (mqFlag : Nat) (s : EffectHalHidl) (h : Heap)
    (env : ProcEnv) : ProcResult :=
  if s.mEffect = false ∨ s.mInBuffer = 0 ∨ s.mOutBuffer = 0 then
    ⟨.returned NO_INIT, s, h, []⟩
  else if (establish P s env).status ≠ OK then
    ⟨.returned (establish P s env).status, (establish P s env).state, h,
      (establish P s env).trace⟩
  else if (refresh P (establish P s env).state h env).status ≠ OK then
    ⟨.returned (refresh P (establish P s env).state h env).status,
      (refresh P (establish P s env).state h env).state,
      (refresh P (establish P s env).state h env).heap,
      (establish P s env).trace ++ (refresh P (establish P s env).state h env).trace⟩
  else
    ⟨(handshake P mqFlag (refresh P (establish P s env).state h env).state env).1,
      (refresh P (establish P s env).state h env).state,
      (refresh P (establish P s env).state h env).heap,
      (establish P s env).trace ++ (refresh P (establish P s env).state h env).trace ++
        (handshake P mqFlag (refresh P (establish P s env).state h env).state env).2⟩

/-- The method `EffectHalHidl::process`. -/
def process (P : Platform) (s : EffectHalHidl) (h : Heap) (env : ProcEnv) : ProcResult :=
  processImpl P REQUEST_PROCESS s h env

/-- The method `EffectHalHidl::processReverse`. -/
def processReverse (P : Platform) (s : EffectHalHidl) (h : Heap) (env : ProcEnv) :
    ProcResult :=
  processImpl P REQUEST_PROCESS_REVERSE s h env

/-! ## Commands and close -/

/-- Arguments of `command`. A pointer argument is `none` for `nullptr`;
`replySize` holds the value `*replySize`, `pCmdData` and `pReplyData` the bytes
behind the pointer. -/
structure CmdArgs where
  cmdCode : Nat
  cmdSize : Nat
  pCmdData : Option (List Nat)
  replySize : Option Nat
  pReplyData : Option (List Nat)

/-- What the remote side answers during one `command` call; `none` is a
transport failure. `command` is the status and response bytes of the generic
call, `getConfig` the result and configuration of `getConfig` /
`getConfigReverse`, `setConfig` the result of `setConfig` / `setConfigReverse`. -/
structure CmdEnv where
  command : Option (Int × List Nat)
  getConfig : Option (Result × List Nat)
  setConfig : Option Result

/-- Status, the caller's `*replySize` and reply buffer after the call, and the
trace of a `command` call. -/
structure CmdResult where
  status : Int
  replySize : Option Nat
  pReplyData : Option (List Nat)
  trace : List Event

/-- The libc call `memcpy(dst, src, n)` on byte lists. -/
def memcpy (dst src : List Nat) (n : Nat) : List Nat :=
  src.take n ++ dst.drop n

/-- The four bytes of an `int32_t` in memory (little endian, two's complement). -/
def encodeInt32 (x : Int) : List Nat :=
  let u : Nat := (x % 4294967296).toNat
  [u % 256, u / 256 % 256, u / 65536 % 256, u / 16777216 % 256]

/-- The method `EffectHalHidl::getConfigImpl`. -/
def getConfigImpl (P : Platform) (cmdCode : Nat) (replySize : Option Nat)
    (pReplyData : Option (List Nat)) (reply : Option (Result × List Nat)) : CmdResult :=
  if replySize = none ∨ replySize ≠ some P.sizeofEffectConfig ∨ pReplyData = none then
    ⟨BAD_VALUE, replySize, pReplyData, []⟩
  else
    let ev : Event := if cmdCode = EFFECT_CMD_GET_CONFIG then .getConfig else .getConfigReverse
    match reply with
    | none => ⟨FAILED_TRANSACTION, replySize, pReplyData, [ev]⟩
    | some (r, hidlConfig) =>
      let hal := P.effectConfigToHal hidlConfig
      ⟨P.analyzeResult r, replySize,
        if r = .OK then pReplyData.map (fun buf => memcpy buf hal hal.length) else pReplyData,
        [ev]⟩

/-- The method `EffectHalHidl::setConfigImpl`. -/
def setConfigImpl (P : Platform) (s : EffectHalHidl) (cmdCode cmdSize : Nat)
    (pCmdData : Option (List Nat)) (replySize : Option Nat) (pReplyData : Option (List Nat))
    (reply : Option Result) : CmdResult :=
  if pCmdData = none ∨ cmdSize ≠ P.sizeofEffectConfig ∨ replySize = none ∨
      replySize ≠ some sizeofInt32 ∨ pReplyData = none then
    ⟨BAD_VALUE, replySize, pReplyData, []⟩
  else
    let hidlConfig := P.effectConfigFromHal (pCmdData.getD []) s.mIsInput
    let ev : Event :=
      if cmdCode = EFFECT_CMD_SET_CONFIG then .setConfig hidlConfig
      else .setConfigReverse hidlConfig
    match reply with
    | some r =>
      let result := P.analyzeResult r
      ⟨result, replySize,
        pReplyData.map (fun buf => memcpy buf (encodeInt32 result) sizeofInt32), [ev]⟩
    | none => ⟨FAILED_TRANSACTION, replySize, pReplyData, [ev]⟩

/-- The method `EffectHalHidl::command`. -/
def command (P : Platform) (s : EffectHalHidl) (a : CmdArgs) (env : CmdEnv) : CmdResult :=
  if s.mEffect = false then ⟨NO_INIT, a.replySize, a.pReplyData, []⟩
  else if a.cmdCode = EFFECT_CMD_SET_CONFIG ∨ a.cmdCode = EFFECT_CMD_SET_CONFIG_REVERSE then
    setConfigImpl P s a.cmdCode a.cmdSize a.pCmdData a.replySize a.pReplyData env.setConfig
  else if a.cmdCode = EFFECT_CMD_GET_CONFIG ∨ a.cmdCode = EFFECT_CMD_GET_CONFIG_REVERSE then
    getConfigImpl P a.cmdCode a.replySize a.pReplyData env.getConfig
  else
    let hidlData : List Nat :=
      match a.pCmdData with
      | some d => if a.cmdSize > 0 then d.take a.cmdSize else []
      | none => []
    let useStub : Bool := decide (a.replySize = none ∨ a.pReplyData = none)
    let cap : Nat := if useStub = true then 0 else a.replySize.getD 0
    let ev : Event := .command a.cmdCode hidlData cap
    match env.command with
    | none => ⟨FAILED_TRANSACTION, a.replySize, a.pReplyData, [ev]⟩
    | some (st, result) =>
      if st = 0 then
        let n : Nat := if cap > result.length then result.length else cap
        ⟨st, if useStub = true then a.replySize else some n,
          if n > 0 then a.pReplyData.map (fun buf => memcpy buf result n) else a.pReplyData,
          [ev]⟩
      else ⟨st, a.replySize, a.pReplyData, [ev]⟩

/-- The method `EffectHalHidl::close`; `ret` is the `Return<Result>` of the remote
close (`none` is a transport failure). -/
def close (P : Platform) (s : EffectHalHidl) (ret : Option Result) : StepResult :=
  if s.mEffect = false then ⟨NO_INIT, s, []⟩
  else
    match ret with
    | some r => ⟨P.analyzeResult r, s, [.close]⟩
    | none => ⟨FAILED_TRANSACTION, s, [.close]⟩

/-! ## Sequences of buffer-binding calls -/

/-- One caller action that rebinds a buffer. -/
inductive BufCall where
  | setIn (buffer : Nat)
  | setOut (buffer : Nat)
deriving DecidableEq, Repr

/-- Run one rebinding call. -/
def BufCall.run (h : Heap) (s : EffectHalHidl) : BufCall → Int × EffectHalHidl
  | .setIn b => setInBuffer s h b
  | .setOut b => setOutBuffer s h b

/-- Run a sequence of rebinding calls, collecting the returned codes. -/
def runBufCalls (h : Heap) (s : EffectHalHidl) : List BufCall → List Int × EffectHalHidl
  | [] => ([], s)
  | c :: cs =>
    let r := c.run h s
    let rest := runBufCalls h r.2 cs
    (r.1 :: rest.1, rest.2)

/-- The call passes a non-null buffer whose `audioBuffer()` is the one of the
buffer bound on that side at the moment of the call. -/
def BufCall.sameRegion (h : Heap) (s : EffectHalHidl) : BufCall → Bool
  | .setIn b => decide (b ≠ 0 ∧ (h b).audioBuffer = (h s.mInBuffer).audioBuffer)
  | .setOut b => decide (b ≠ 0 ∧ (h b).audioBuffer = (h s.mOutBuffer).audioBuffer)

/-- Every call of the sequence passes the region bound when it is made. -/
def allSameRegion (h : Heap) (s : EffectHalHidl) : List BufCall → Bool
  | [] => true
  | c :: cs => c.sameRegion h s && allSameRegion h (c.run h s).2 cs

/-! ## Concrete inputs -/

/-- The wait calls and their returns for a run of scripted wait results. -/
def waitTrace : List WaitResult → List Event
  | [] => []
  | w :: ws => .wait DONE_PROCESSING :: .waitReturn w.ret w.efState :: waitTrace ws

/-- An environment whose wait returns `-EAGAIN`, then `-EINTR`, then fails with
`-22`, the completion bit never being set. -/
def retryThenFailEnv : ProcEnv :=
  { prepare := .reply .OK true true true, push := some .OK,
    waits := [⟨-11, 0⟩, ⟨-4, 0⟩, ⟨-22, 0⟩], status := some .OK }

/-- A session with a valid handle and an input buffer but no output buffer. -/
def c1Session : EffectHalHidl :=
  { mEffect := true, mInBuffer := 1, mOutBuffer := 0, mBuffersChanged := true,
    mStatusMQ := false, mEfGroup := false, mIsInput := false }

/-- A heap in which the buffer at address `p` has region `100 + p`, 256 frames and
no pending frame-count change. -/
def plainHeap : Heap := fun p => ⟨100 + p, 256, false⟩

/-- An environment in which every collaborator succeeds at once. -/
def okEnv : ProcEnv :=
  { prepare := .reply .OK true true true, push := some .OK,
    waits := [⟨0, 1⟩], status := some .OK }

/-- A session with a valid handle, both buffers bound, nothing pushed yet and no
channel established. -/
def freshSession : EffectHalHidl :=
  { mEffect := true, mInBuffer := 1, mOutBuffer := 2, mBuffersChanged := true,
    mStatusMQ := false, mEfGroup := false, mIsInput := false }

/-- Remote answers for `command`: the generic call reports status `-22` with a
4-byte response; the configuration calls succeed. -/
def failingCmdEnv : CmdEnv :=
  { command := some (-22, [1, 2, 3, 4]), getConfig := some (.OK, List.replicate 64 0),
    setConfig := some .OK }

/-- Remote answers for `command`: the generic call reports status `0` with a
4-byte response; the configuration calls succeed. -/
def okCmdEnv : CmdEnv :=
  { command := some (0, [1, 2, 3, 4]), getConfig := some (.OK, List.replicate 64 0),
    setConfig := some .OK }

/-- A set-configuration call with a 32-byte payload (the structure has 64 bytes
on `samplePlatform`) and a well-formed 4-byte reply slot. -/
def shortSetConfigArgs : CmdArgs :=
  { cmdCode := EFFECT_CMD_SET_CONFIG, cmdSize := 32, pCmdData := some (List.replicate 32 0),
    replySize := some 4, pReplyData := some [9, 9, 9, 9] }

/-- A generic command (`EFFECT_CMD_SET_PARAM`, code 5) with no payload and a
10-byte reply buffer filled with sevens. -/
def genericArgs : CmdArgs :=
  { cmdCode := 5, cmdSize := 0, pCmdData := none,
    replySize := some 10, pReplyData := some (List.replicate 10 7) }

/-- A session with a valid handle, both buffers bound, an established channel and
the dirty flag still set. -/
def dirtySession : EffectHalHidl :=
  { mEffect := true, mInBuffer := 1, mOutBuffer := 2, mBuffersChanged := true,
    mStatusMQ := true, mEfGroup := true, mIsInput := false }

/-- A session with a valid handle, both buffers bound, an established channel and
the dirty flag clear. -/
def steadySession : EffectHalHidl :=
  { mEffect := true, mInBuffer := 1, mOutBuffer := 2, mBuffersChanged := false,
    mStatusMQ := true, mEfGroup := true, mIsInput := false }

/-- An environment in which the remote setup call is not delivered. -/
def failPrepareEnv : ProcEnv :=
  { prepare := .transportError, push := some .OK, waits := [⟨0, 1⟩], status := some .OK }

/-- An environment in which setup and buffer push succeed and the wait primitive
fails with `-22` without the completion bit. -/
def waitFailEnv : ProcEnv :=
  { prepare := .reply .OK true true true, push := some .OK,
    waits := [⟨-22, 0⟩], status := some .OK }

/-- The heap `plainHeap` after the caller changed the frame count of the buffer
at address 1 to 128. -/
def resizedHeap : Heap := setFrameCount plainHeap 1 128

/-- A second buffer object at address 3 that wraps the region of the buffer at
address 1; every other address is as in `plainHeap`. -/
def aliasHeap : Heap := fun p => if p = 3 then ⟨101, 256, false⟩ else plainHeap p

/-- First `process` call after the frame count of the input buffer changed while
the dirty flag was set. -/
def dirtyRun1 : ProcResult := process samplePlatform dirtySession resizedHeap okEnv

/-- Second `process` call of that run: same regions, same frame counts. -/
def dirtyRun2 : ProcResult := process samplePlatform dirtyRun1.state dirtyRun1.heap okEnv

/-- Third `process` call of that run. -/
def dirtyRun3 : ProcResult := process samplePlatform dirtyRun2.state dirtyRun2.heap okEnv

/-- First `process` call after the frame count of the input buffer changed while
the dirty flag was clear. -/
def steadyRun1 : ProcResult := process samplePlatform steadySession resizedHeap okEnv

/-- Second `process` call of that run: same regions, same frame counts. -/
def steadyRun2 : ProcResult := process samplePlatform steadyRun1.state steadyRun1.heap okEnv

/-! # Theorems -/

/-! ## Facts about the helper methods -/

theorem prepare_trace (P : Platform) (s : EffectHalHidl) (rp : PrepareReply) :
    (prepareForProcessing P s rp).trace = [Event.prepareForProcessing] := by
  cases rp with
  | transportError => rfl
  | reply r v w c =>
    simp only [prepareForProcessing]
    split_ifs <;> rfl

theorem prepare_frame (P : Platform) (s : EffectHalHidl) (rp : PrepareReply) :
    (prepareForProcessing P s rp).state.mEffect = s.mEffect ∧
    (prepareForProcessing P s rp).state.mInBuffer = s.mInBuffer ∧
    (prepareForProcessing P s rp).state.mOutBuffer = s.mOutBuffer ∧
    (prepareForProcessing P s rp).state.mBuffersChanged = s.mBuffersChanged := by
  cases rp with
  | transportError => exact ⟨rfl, rfl, rfl, rfl⟩
  | reply r v w c =>
    simp only [prepareForProcessing]
    split_ifs <;> exact ⟨rfl, rfl, rfl, rfl⟩

theorem prepare_failed_keeps_channel (P : Platform) (s : EffectHalHidl) (rp : PrepareReply)
    (hfail : (prepareForProcessing P s rp).status ≠ OK) :
    (prepareForProcessing P s rp).state.mStatusMQ = s.mStatusMQ := by
  cases rp with
  | transportError => rfl
  | reply r v w c =>
    simp only [prepareForProcessing] at hfail ⊢
    split_ifs at hfail ⊢ <;> first | rfl | exact absurd rfl hfail

theorem push_trace (P : Platform) (s : EffectHalHidl) (rp : Option Result) :
    (setProcessBuffers P s rp).trace = [Event.setProcessBuffers s.mInBuffer s.mOutBuffer] := by
  rcases rp with _ | r
  · rfl
  · cases r <;> rfl

theorem push_frame (P : Platform) (s : EffectHalHidl) (rp : Option Result) :
    (setProcessBuffers P s rp).state.mInBuffer = s.mInBuffer ∧
    (setProcessBuffers P s rp).state.mOutBuffer = s.mOutBuffer ∧
    (setProcessBuffers P s rp).state.mStatusMQ = s.mStatusMQ ∧
    (setProcessBuffers P s rp).state.mEfGroup = s.mEfGroup := by
  rcases rp with _ | r
  · exact ⟨rfl, rfl, rfl, rfl⟩
  · cases r <;> exact ⟨rfl, rfl, rfl, rfl⟩

theorem push_failed_keeps_dirty (P : Platform) (s : EffectHalHidl) (rp : Option Result)
    (hfail : (setProcessBuffers P s rp).status ≠ OK) :
    (setProcessBuffers P s rp).state.mBuffersChanged = s.mBuffersChanged := by
  rcases rp with _ | r
  · rfl
  · cases r <;> first | rfl | exact absurd rfl hfail

theorem push_ok_clears_dirty (P : Platform) (s : EffectHalHidl) (rp : Option Result)
    (hP : ∀ r, P.analyzeResult r = OK → r = Result.OK)
    (hok : (setProcessBuffers P s rp).status = OK) :
    (setProcessBuffers P s rp).state.mBuffersChanged = false := by
  rcases rp with _ | r
  · simp [setProcessBuffers, FAILED_TRANSACTION, OK] at hok
  · cases r
    · rfl
    all_goals exact absurd (hP _ hok) (by decide)

theorem needToReset_false_dirty (s : EffectHalHidl) (h : Heap)
    (hn : (needToResetBuffers s h).1 ≠ true) : s.mBuffersChanged = false := by
  cases hd : s.mBuffersChanged
  · rfl
  · exact absurd (by simp [needToResetBuffers, hd]) hn

theorem establish_frame (P : Platform) (s : EffectHalHidl) (env : ProcEnv) :
    (establish P s env).state.mEffect = s.mEffect ∧
    (establish P s env).state.mInBuffer = s.mInBuffer ∧
    (establish P s env).state.mOutBuffer = s.mOutBuffer ∧
    (establish P s env).state.mBuffersChanged = s.mBuffersChanged := by
  unfold establish
  split_ifs
  · exact prepare_frame P s env.prepare
  · exact ⟨rfl, rfl, rfl, rfl⟩

theorem establish_trace (P : Platform) (s : EffectHalHidl) (env : ProcEnv) :
    (establish P s env).trace =
      if s.mStatusMQ = false then [Event.prepareForProcessing] else [] := by
  unfold establish
  split_ifs
  · exact prepare_trace P s env.prepare
  · rfl

theorem establish_no_fence (P : Platform) (s : EffectHalHidl) (env : ProcEnv) :
    Event.fenceRelease ∉ (establish P s env).trace := by
  rw [establish_trace]
  split_ifs <;> simp

theorem refresh_trace (P : Platform) (s : EffectHalHidl) (h : Heap) (env : ProcEnv) :
    (refresh P s h env).trace =
      if (needToResetBuffers s h).1 = true then
        [Event.setProcessBuffers s.mInBuffer s.mOutBuffer]
      else [] := by
  unfold refresh
  split_ifs
  · exact push_trace P s env.push
  · rfl

theorem refresh_no_fence (P : Platform) (s : EffectHalHidl) (h : Heap) (env : ProcEnv) :
    Event.fenceRelease ∉ (refresh P s h env).trace := by
  rw [refresh_trace]
  split_ifs <;> simp

theorem refresh_frame (P : Platform) (s : EffectHalHidl) (h : Heap) (env : ProcEnv) :
    (refresh P s h env).state.mInBuffer = s.mInBuffer ∧
    (refresh P s h env).state.mOutBuffer = s.mOutBuffer ∧
    (refresh P s h env).state.mStatusMQ = s.mStatusMQ ∧
    (refresh P s h env).state.mEfGroup = s.mEfGroup ∧
    ((refresh P s h env).status ≠ OK →
      (refresh P s h env).state.mBuffersChanged = s.mBuffersChanged) ∧
    ((∀ r, P.analyzeResult r = OK → r = Result.OK) → (refresh P s h env).status = OK →
      (refresh P s h env).state.mBuffersChanged = false) := by
  unfold refresh
  split_ifs with hn
  · obtain ⟨g1, g2, g3, g4⟩ := push_frame P s env.push
    exact ⟨g1, g2, g3, g4, fun hb => push_failed_keeps_dirty P s env.push hb,
      fun hP hok => push_ok_clears_dirty P s env.push hP hok⟩
  · exact ⟨rfl, rfl, rfl, rfl, fun _ => rfl, fun _ _ => needToReset_false_dirty s h hn⟩

theorem handshake_fence (P : Platform) (mqFlag : Nat) (s : EffectHalHidl) (env : ProcEnv) :
    Event.fenceRelease ∈ (handshake P mqFlag s env).2 := by
  unfold handshake
  split_ifs <;> simp

theorem waitLoop_events (P : Platform) (mq : Bool) (st : Option Result)
    (ws : List WaitResult) :
    ∀ e ∈ (waitLoop P mq st ws).2,
      e = Event.wait DONE_PROCESSING ∨ (∃ r f, e = Event.waitReturn r f) ∨
        e = Event.mqRead ∨ e = Event.fenceAcquire := by
  induction ws with
  | nil => simp [waitLoop]
  | cons w ws ih =>
    intro e he
    simp only [waitLoop] at he
    split_ifs at he
    all_goals simp only [List.mem_cons, List.mem_append, List.mem_singleton,
      List.not_mem_nil, or_false] at he
    all_goals aesop

theorem handshake_no_setup_no_push (P : Platform) (mqFlag : Nat) (s : EffectHalHidl)
    (env : ProcEnv) :
    Event.prepareForProcessing ∉ (handshake P mqFlag s env).2 ∧
    ∀ a b, Event.setProcessBuffers a b ∉ (handshake P mqFlag s env).2 := by
  unfold handshake
  split_ifs
  · simp
  · refine ⟨?_, ?_⟩
    · intro hmem
      simp only [List.mem_cons] at hmem
      rcases hmem with hmem | hmem | hmem
      · cases hmem
      · cases hmem
      · rcases waitLoop_events P _ _ _ _ hmem with h1 | ⟨_, _, h1⟩ | h1 | h1 <;> cases h1
    · intro a b hmem
      simp only [List.mem_cons] at hmem
      rcases hmem with hmem | hmem | hmem
      · cases hmem
      · cases hmem
      · rcases waitLoop_events P _ _ _ _ hmem with h1 | ⟨_, _, h1⟩ | h1 | h1 <;> cases h1

theorem processImpl_setup_first (P : Platform) (mqFlag : Nat) (s : EffectHalHidl) (h : Heap)
    (env : ProcEnv) (hE : s.mEffect = true) (hin : s.mInBuffer ≠ 0) (hout : s.mOutBuffer ≠ 0)
    (hmq : s.mStatusMQ = false) :
    (∃ rest, (processImpl P mqFlag s h env).trace = Event.prepareForProcessing :: rest ∧
      Event.prepareForProcessing ∉ rest) ∧
    ((prepareForProcessing P s env.prepare).status ≠ OK →
      (processImpl P mqFlag s h env).outcome =
        .returned (prepareForProcessing P s env.prepare).status ∧
      (processImpl P mqFlag s h env).trace = [Event.prepareForProcessing] ∧
      (processImpl P mqFlag s h env).state = (prepareForProcessing P s env.prepare).state ∧
      (processImpl P mqFlag s h env).heap = h) := by
  have hpre : ¬ (s.mEffect = false ∨ s.mInBuffer = 0 ∨ s.mOutBuffer = 0) := by
    simp [hE, hin, hout]
  have he : establish P s env = prepareForProcessing P s env.prepare := by
    simp [establish, hmq]
  have et := prepare_trace P s env.prepare
  have rt := refresh_trace P (prepareForProcessing P s env.prepare).state h env
  have kt := (handshake_no_setup_no_push P mqFlag
    (refresh P (prepareForProcessing P s env.prepare).state h env).state env).1
  unfold processImpl
  simp only [hpre, if_false, he]
  refine ⟨?_, ?_⟩
  · split_ifs with h1 h2
    · exact ⟨[], by simp [et], by simp⟩
    · refine ⟨_, by rw [et]; rfl, ?_⟩
      rw [rt]
      split_ifs <;> simp
    · refine ⟨_, by rw [et, List.append_assoc]; rfl, ?_⟩
      rw [rt]
      split_ifs <;> simp [kt]
  · intro hf
    simp [hf, et]

theorem needToReset_congr (s t : EffectHalHidl) (h : Heap)
    (hd : t.mBuffersChanged = s.mBuffersChanged) (hi : t.mInBuffer = s.mInBuffer)
    (ho : t.mOutBuffer = s.mOutBuffer) : needToResetBuffers t h = needToResetBuffers s h := by
  simp [needToResetBuffers, hd, hi, ho]

theorem processImpl_no_push (P : Platform) (mqFlag : Nat) (s : EffectHalHidl) (h : Heap)
    (env : ProcEnv) (hn : (needToResetBuffers s h).1 = false) :
    ∀ a b, Event.setProcessBuffers a b ∉ (processImpl P mqFlag s h env).trace := by
  intro a b
  obtain ⟨_, e2, e3, e4⟩ := establish_frame P s env
  have hn1 : (needToResetBuffers (establish P s env).state h).1 = false := by
    rw [needToReset_congr s _ h e4 e2 e3]; exact hn
  have et := establish_trace P s env
  have rt := refresh_trace P (establish P s env).state h env
  have kt := (handshake_no_setup_no_push P mqFlag
    (refresh P (establish P s env).state h env).state env).2 a b
  simp only [hn1, Bool.false_eq_true, if_false] at rt
  unfold processImpl
  split_ifs
  · simp
  · rw [et]; split_ifs <;> simp
  · simp only [rt, et]; split_ifs <;> simp
  · simp only [rt, et, List.mem_append, not_or]
    refine ⟨⟨?_, by simp⟩, kt⟩
    split_ifs <;> simp

theorem bufCall_run_inv (h : Heap) (s : EffectHalHidl) (c : BufCall)
    (hd : s.mBuffersChanged = false) (hin : s.mInBuffer ≠ 0) (hout : s.mOutBuffer ≠ 0)
    (hc : c.sameRegion h s = true) :
    (c.run h s).1 = OK ∧ (c.run h s).2.mBuffersChanged = false ∧
    (c.run h s).2.mInBuffer ≠ 0 ∧ (c.run h s).2.mOutBuffer ≠ 0 ∧
    (h (c.run h s).2.mInBuffer).audioBuffer = (h s.mInBuffer).audioBuffer ∧
    (h (c.run h s).2.mOutBuffer).audioBuffer = (h s.mOutBuffer).audioBuffer := by
  cases c with
  | setIn b =>
    simp only [BufCall.sameRegion, decide_eq_true_eq] at hc
    obtain ⟨hb, hr⟩ := hc
    simp [BufCall.run, setInBuffer, hd, hin, hout, hb, hr]
  | setOut b =>
    simp only [BufCall.sameRegion, decide_eq_true_eq] at hc
    obtain ⟨hb, hr⟩ := hc
    simp [BufCall.run, setOutBuffer, hd, hin, hout, hb, hr]

theorem runBufCalls_inv (h : Heap) (calls : List BufCall) :
    ∀ s : EffectHalHidl, s.mBuffersChanged = false → s.mInBuffer ≠ 0 → s.mOutBuffer ≠ 0 →
      allSameRegion h s calls = true →
      (runBufCalls h s calls).1 = List.replicate calls.length OK ∧
      (runBufCalls h s calls).2.mBuffersChanged = false ∧
      (runBufCalls h s calls).2.mInBuffer ≠ 0 ∧ (runBufCalls h s calls).2.mOutBuffer ≠ 0 ∧
      (h (runBufCalls h s calls).2.mInBuffer).audioBuffer = (h s.mInBuffer).audioBuffer ∧
      (h (runBufCalls h s calls).2.mOutBuffer).audioBuffer = (h s.mOutBuffer).audioBuffer := by
  induction calls with
  | nil =>
    intro s hd hin hout _
    exact ⟨rfl, hd, hin, hout, rfl, rfl⟩
  | cons c cs ih =>
    intro s hd hin hout hall
    simp only [allSameRegion, Bool.and_eq_true] at hall
    obtain ⟨hc, hrest⟩ := hall
    obtain ⟨a1, a2, a3, a4, a5, a6⟩ := bufCall_run_inv h s c hd hin hout hc
    obtain ⟨b1, b2, b3, b4, b5, b6⟩ := ih (c.run h s).2 a2 a3 a4 hrest
    simp only [runBufCalls, List.length_cons, List.replicate_succ]
    exact ⟨by rw [a1, b1], b2, b3, b4, b5.trans a5, b6.trans a6⟩

theorem allSameRegion_take (h : Heap) (calls : List BufCall) :
    ∀ (s : EffectHalHidl) (n : Nat), allSameRegion h s calls = true →
      allSameRegion h s (calls.take n) = true := by
  induction calls with
  | nil => intro s n _; simp [allSameRegion]
  | cons c cs ih =>
    intro s n hall
    cases n with
    | zero => simp [allSameRegion]
    | succ k =>
      simp only [allSameRegion, Bool.and_eq_true, List.take_succ_cons] at hall ⊢
      exact ⟨hall.1, ih _ k hall.2⟩

theorem establish_ok_channel (P : Platform) (s : EffectHalHidl) (env : ProcEnv)
    (hP : ∀ r, P.analyzeResult r = OK → r = Result.OK)
    (hwf : s.mStatusMQ = true → s.mEfGroup = true)
    (hok : (establish P s env).status = OK) :
    (establish P s env).state.mStatusMQ = true ∧ (establish P s env).state.mEfGroup = true := by
  unfold establish at hok ⊢
  split_ifs at hok ⊢ with hmq
  · cases hrp : env.prepare with
    | transportError =>
      rw [hrp] at hok
      simp [prepareForProcessing, FAILED_TRANSACTION, OK] at hok
    | reply r v w c =>
      rw [hrp] at hok
      simp only [prepareForProcessing] at hok ⊢
      split_ifs at hok ⊢ with h1 h2 h3 h4
      · exact absurd (hP r hok) h1
      · simp [NO_INIT, OK] at hok
      · simp only [not_or, Bool.not_eq_false] at h3
        exact ⟨rfl, h3.2⟩
      · simp [NO_INIT, OK] at hok
      · simp only [not_or, Bool.not_eq_false] at h4
        exact ⟨rfl, h4.2⟩
  · have hq : s.mStatusMQ = true := by simpa using hmq
    exact ⟨hq, hwf hq⟩

theorem processImpl_shape (P : Platform) (mqFlag : Nat) (s : EffectHalHidl) (h : Heap)
    (env : ProcEnv) (hP : ∀ r, P.analyzeResult r = OK → r = Result.OK)
    (hwf : s.mStatusMQ = true → s.mEfGroup = true) :
    ∃ pre, (∀ e ∈ pre, e = Event.prepareForProcessing ∨ ∃ a b, e = Event.setProcessBuffers a b) ∧
      (((processImpl P mqFlag s h env).trace = pre ∧
          ∃ st, (processImpl P mqFlag s h env).outcome = .returned st) ∨
        ((processImpl P mqFlag s h env).trace =
            pre ++ Event.fenceRelease :: Event.wake mqFlag ::
              (waitLoop P true env.status env.waits).2 ∧
          (processImpl P mqFlag s h env).outcome = (waitLoop P true env.status env.waits).1)) := by
  have et := establish_trace P s env
  have rt := refresh_trace P (establish P s env).state h env
  have hpre : ∀ e ∈ (establish P s env).trace ++ (refresh P (establish P s env).state h env).trace,
      e = Event.prepareForProcessing ∨ ∃ a b, e = Event.setProcessBuffers a b := by
    intro e he
    rw [et, rt] at he
    split_ifs at he <;> simp at he <;> aesop
  unfold processImpl
  split_ifs with h1 h2 h3
  · exact ⟨[], by simp, Or.inl ⟨rfl, _, rfl⟩⟩
  · exact ⟨_, fun e he => hpre e (List.mem_append_left _ he), Or.inl ⟨rfl, _, rfl⟩⟩
  · exact ⟨_, hpre, Or.inl ⟨rfl, _, rfl⟩⟩
  · obtain ⟨c1, c2⟩ := establish_ok_channel P s env hP hwf (not_not.mp h2)
    obtain ⟨_, _, r3, r4, _, _⟩ := refresh_frame P (establish P s env).state h env
    refine ⟨_, hpre, Or.inr ?_⟩
    simp [handshake, r3, r4, c1, c2]

theorem waitLoop_cons_transient (P : Platform) (mq : Bool) (st : Option Result)
    (w : WaitResult) (ws : List WaitResult)
    (hw : w.efState &&& DONE_PROCESSING = 0 ∧ (w.ret = -EAGAIN ∨ w.ret = -EINTR)) :
    waitLoop P mq st (w :: ws) =
      ((waitLoop P mq st ws).1,
        Event.wait DONE_PROCESSING :: Event.waitReturn w.ret w.efState ::
          (waitLoop P mq st ws).2) := by
  simp [waitLoop, hw.1, hw.2]

theorem waitLoop_cons_stop (P : Platform) (mq : Bool) (st : Option Result)
    (w : WaitResult) (ws : List WaitResult) (hd : w.efState &&& DONE_PROCESSING = 0)
    (h1 : w.ret ≠ -EAGAIN) (h2 : w.ret ≠ -EINTR) :
    waitLoop P mq st (w :: ws) =
      (.returned w.ret, [Event.wait DONE_PROCESSING, Event.waitReturn w.ret w.efState]) := by
  simp [waitLoop, hd, h1, h2]

theorem waitLoop_transient_prefix (P : Platform) (mq : Bool) (st : Option Result)
    (pre rest : List WaitResult)
    (hpre : ∀ x ∈ pre, x.efState &&& DONE_PROCESSING = 0 ∧ (x.ret = -EAGAIN ∨ x.ret = -EINTR)) :
    waitLoop P mq st (pre ++ rest) =
      ((waitLoop P mq st rest).1, waitTrace pre ++ (waitLoop P mq st rest).2) := by
  induction pre with
  | nil => simp [waitTrace]
  | cons w ws ih =>
    have hw := hpre w (List.mem_cons_self _ _)
    have ih2 := ih (fun x hx => hpre x (List.mem_cons_of_mem _ hx))
    rw [List.cons_append, waitLoop_cons_transient P mq st w _ hw, ih2]
    simp [waitTrace]

theorem waitTrace_no_wake_no_read (ws : List WaitResult) :
    (∀ b, Event.wake b ∉ waitTrace ws) ∧ Event.mqRead ∉ waitTrace ws := by
  induction ws with
  | nil => simp [waitTrace]
  | cons w ws ih => simp [waitTrace, ih.1, ih.2]

theorem waitTrace_append (xs ys : List WaitResult) :
    waitTrace (xs ++ ys) = waitTrace xs ++ waitTrace ys := by
  induction xs with
  | nil => rfl
  | cons w ws ih => simp [waitTrace, ih]

theorem waitLoop_head (P : Platform) (mq : Bool) (st : Option Result) (ws : List WaitResult) :
    ∃ rest, (waitLoop P mq st ws).2 = Event.wait DONE_PROCESSING :: rest := by
  cases ws with
  | nil => exact ⟨[], rfl⟩
  | cons w ws =>
    simp only [waitLoop]
    split_ifs <;> exact ⟨_, rfl⟩

theorem create_channel_inv (effect isInput : Bool) :
    (EffectHalHidl.create effect isInput).mStatusMQ = true →
      (EffectHalHidl.create effect isInput).mEfGroup = true := by
  intro hq
  cases hq

theorem prepare_channel_inv (P : Platform) (s : EffectHalHidl) (rp : PrepareReply)
    (hmq : s.mStatusMQ = false) :
    (prepareForProcessing P s rp).state.mStatusMQ = true →
      (prepareForProcessing P s rp).state.mEfGroup = true := by
  cases rp with
  | transportError =>
    intro hq
    simp [prepareForProcessing, hmq] at hq
  | reply r v w c =>
    simp only [prepareForProcessing]
    split_ifs with h1 h2 h3 h4
    · intro hq; simp [hmq] at hq
    · intro hq; simp [hmq] at hq
    · intro _
      simp only [not_or, Bool.not_eq_false] at h3
      exact h3.2
    · intro hq; simp [hmq] at hq
    · intro _
      simp only [not_or, Bool.not_eq_false] at h4
      exact h4.2

theorem processImpl_channel_inv (P : Platform) (mqFlag : Nat) (s : EffectHalHidl) (h : Heap)
    (env : ProcEnv) (hwf : s.mStatusMQ = true → s.mEfGroup = true) :
    (processImpl P mqFlag s h env).state.mStatusMQ = true →
      (processImpl P mqFlag s h env).state.mEfGroup = true := by
  have he : (establish P s env).state.mStatusMQ = true →
      (establish P s env).state.mEfGroup = true := by
    unfold establish
    split_ifs with hmq
    · exact prepare_channel_inv P s env.prepare hmq
    · exact hwf
  obtain ⟨_, _, r3, r4, _, _⟩ := refresh_frame P (establish P s env).state h env
  unfold processImpl
  split_ifs
  · exact hwf
  · exact he
  · simp only [r3, r4]; exact he
  · simp only [r3, r4]; exact he

theorem processImpl_reach (P : Platform) (mqFlag : Nat) (s : EffectHalHidl) (h : Heap)
    (env : ProcEnv) (hP : ∀ r, P.analyzeResult r = OK → r = Result.OK)
    (hwf : s.mStatusMQ = true → s.mEfGroup = true)
    (hE : s.mEffect = true) (hin : s.mInBuffer ≠ 0) (hout : s.mOutBuffer ≠ 0)
    (hest : (establish P s env).status = OK)
    (href : (refresh P (establish P s env).state h env).status = OK) :
    (processImpl P mqFlag s h env).trace =
      (establish P s env).trace ++ (refresh P (establish P s env).state h env).trace ++
        Event.fenceRelease :: Event.wake mqFlag :: (waitLoop P true env.status env.waits).2 ∧
    (processImpl P mqFlag s h env).outcome = (waitLoop P true env.status env.waits).1 ∧
    (processImpl P mqFlag s h env).state = (refresh P (establish P s env).state h env).state := by
  have hpre : ¬ (s.mEffect = false ∨ s.mInBuffer = 0 ∨ s.mOutBuffer = 0) := by
    simp [hE, hin, hout]
  obtain ⟨c1, c2⟩ := establish_ok_channel P s env hP hwf hest
  obtain ⟨_, _, r3, r4, _, _⟩ := refresh_frame P (establish P s env).state h env
  unfold processImpl
  simp [hpre, hest, href, handshake, r3, r4, c1, c2]

theorem processImpl_fence_iff (P : Platform) (mqFlag : Nat) (s : EffectHalHidl) (h : Heap)
    (env : ProcEnv) (hP : ∀ r, P.analyzeResult r = OK → r = Result.OK)
    (hwf : s.mStatusMQ = true → s.mEfGroup = true) :
    Event.fenceRelease ∈ (processImpl P mqFlag s h env).trace ↔
      (s.mEffect = true ∧ s.mInBuffer ≠ 0 ∧ s.mOutBuffer ≠ 0 ∧
        (establish P s env).status = OK ∧
        (refresh P (establish P s env).state h env).status = OK) := by
  constructor
  · intro hm
    have et := establish_no_fence P s env
    have rt := refresh_no_fence P (establish P s env).state h env
    unfold processImpl at hm
    split_ifs at hm with h1 h2 h3
    · simp at hm
    · exact absurd hm et
    · simp only [List.mem_append] at hm
      rcases hm with hm | hm
      · exact absurd hm et
      · exact absurd hm rt
    · simp only [not_or, Bool.not_eq_false] at h1
      exact ⟨h1.1, h1.2.1, h1.2.2, not_not.mp h2, not_not.mp h3⟩
  · rintro ⟨hE, hin, hout, hest, href⟩
    rw [(processImpl_reach P mqFlag s h env hP hwf hE hin hout hest href).1]
    simp

/-! ## C1: unmet preconditions -/

/-- C1: when the remote handle is absent or the input buffer or the output buffer
is unbound, both `process` and `processReverse` return `NO_INIT`, make no call at
all (the trace is empty: no setup, no buffer push, no wake, no wait, no status
read) and leave the session state and the buffers as they were. -/
theorem c1_unbound_returns_no_init (P : Platform) (s : EffectHalHidl) (h : Heap)
    (env : ProcEnv) (hpre : s.mEffect = false ∨ s.mInBuffer = 0 ∨ s.mOutBuffer = 0) :
    ((process P s h env).outcome = .returned NO_INIT ∧ (process P s h env).trace = [] ∧
      (process P s h env).state = s ∧ (process P s h env).heap = h) ∧
    ((processReverse P s h env).outcome = .returned NO_INIT ∧
      (processReverse P s h env).trace = [] ∧
      (processReverse P s h env).state = s ∧ (processReverse P s h env).heap = h) := by
  simp [process, processReverse, processImpl, hpre]

/-- C1 at a session whose output buffer is unbound. -/
theorem c1_unbound_returns_no_init_witness :
    (c1Session.mEffect = false ∨ c1Session.mInBuffer = 0 ∨ c1Session.mOutBuffer = 0) ∧
    (((process samplePlatform c1Session plainHeap okEnv).outcome = .returned NO_INIT ∧
      (process samplePlatform c1Session plainHeap okEnv).trace = [] ∧
      (process samplePlatform c1Session plainHeap okEnv).state = c1Session ∧
      (process samplePlatform c1Session plainHeap okEnv).heap = plainHeap) ∧
    ((processReverse samplePlatform c1Session plainHeap okEnv).outcome = .returned NO_INIT ∧
      (processReverse samplePlatform c1Session plainHeap okEnv).trace = [] ∧
      (processReverse samplePlatform c1Session plainHeap okEnv).state = c1Session ∧
      (processReverse samplePlatform c1Session plainHeap okEnv).heap = plainHeap)) :=
  ⟨by decide, c1_unbound_returns_no_init samplePlatform c1Session plainHeap okEnv (by decide)⟩

/-! ## C2: malformed configuration arguments -/

/-- C2: on a session with a valid remote handle, a set-configuration command
(forward or reverse) whose payload is null, whose payload size differs from the
size of the configuration structure, whose reply size pointer is null, whose
reply capacity is not the size of one 32-bit status, or whose reply buffer is
null, and a get-configuration command (forward or reverse) whose reply size
pointer is null, whose reply capacity differs from the configuration structure
size, or whose reply buffer is null, returns `BAD_VALUE` with an empty trace (no
remote call) and with the reply buffer and reply size untouched. -/
theorem c2_config_args_rejected (P : Platform) (s : EffectHalHidl) (a : CmdArgs)
    (env : CmdEnv) (hE : s.mEffect = true)
    (hbad :
      ((a.cmdCode = EFFECT_CMD_SET_CONFIG ∨ a.cmdCode = EFFECT_CMD_SET_CONFIG_REVERSE) ∧
        (a.pCmdData = none ∨ a.cmdSize ≠ P.sizeofEffectConfig ∨ a.replySize = none ∨
          (∃ n, a.replySize = some n ∧ n ≠ sizeofInt32) ∨ a.pReplyData = none)) ∨
      ((a.cmdCode = EFFECT_CMD_GET_CONFIG ∨ a.cmdCode = EFFECT_CMD_GET_CONFIG_REVERSE) ∧
        (a.replySize = none ∨ (∃ n, a.replySize = some n ∧ n ≠ P.sizeofEffectConfig) ∨
          a.pReplyData = none))) :
    (command P s a env).status = BAD_VALUE ∧ (command P s a env).trace = [] ∧
    (command P s a env).pReplyData = a.pReplyData ∧
    (command P s a env).replySize = a.replySize := by
  rcases hbad with ⟨hc, hb⟩ | ⟨hc, hb⟩
  · have hcond : a.pCmdData = none ∨ a.cmdSize ≠ P.sizeofEffectConfig ∨ a.replySize = none ∨
        a.replySize ≠ some sizeofInt32 ∨ a.pReplyData = none := by
      rcases hb with h1 | h1 | h1 | ⟨n, h1, h2⟩ | h1
      · exact Or.inl h1
      · exact Or.inr (Or.inl h1)
      · exact Or.inr (Or.inr (Or.inl h1))
      · refine Or.inr (Or.inr (Or.inr (Or.inl ?_)))
        rw [h1]
        intro hn
        exact h2 (Option.some.inj hn)
      · exact Or.inr (Or.inr (Or.inr (Or.inr h1)))
    simp only [command, hE, hc, setConfigImpl, hcond]
    simp
  · have hns : ¬ (a.cmdCode = EFFECT_CMD_SET_CONFIG ∨
        a.cmdCode = EFFECT_CMD_SET_CONFIG_REVERSE) := by
      rcases hc with h1 | h1 <;> rw [h1] <;> decide
    have hcond : a.replySize = none ∨ a.replySize ≠ some P.sizeofEffectConfig ∨
        a.pReplyData = none := by
      rcases hb with h1 | ⟨n, h1, h2⟩ | h1
      · exact Or.inl h1
      · refine Or.inr (Or.inl ?_)
        rw [h1]
        intro hn
        exact h2 (Option.some.inj hn)
      · exact Or.inr (Or.inr h1)
    simp only [command, hE, hc, hns, getConfigImpl, hcond]
    simp

/-- C2 at the spec's example: a 32-byte set-configuration payload against a
64-byte configuration structure. -/
theorem c2_config_args_rejected_witness :
    (command samplePlatform freshSession shortSetConfigArgs okCmdEnv).status = BAD_VALUE ∧
    (command samplePlatform freshSession shortSetConfigArgs okCmdEnv).trace = [] ∧
    (command samplePlatform freshSession shortSetConfigArgs okCmdEnv).pReplyData =
      some [9, 9, 9, 9] ∧
    (command samplePlatform freshSession shortSetConfigArgs okCmdEnv).replySize = some 4 :=
  c2_config_args_rejected samplePlatform freshSession shortSetConfigArgs okCmdEnv rfl
    (Or.inl ⟨Or.inl rfl, Or.inr (Or.inl (by decide))⟩)

/-! ## C3: generic commands -/

/-- C3, as stated, fails: when the remote reports the non-zero status `-22` with a
4-byte response to a caller offering 10 bytes, the reply size stays 10 (not
`min 10 4`) and the reply buffer is not written. -/
theorem c3_counterexample :
    (command samplePlatform freshSession genericArgs failingCmdEnv).status = -22 ∧
    (command samplePlatform freshSession genericArgs failingCmdEnv).replySize = some 10 ∧
    (command samplePlatform freshSession genericArgs failingCmdEnv).replySize ≠
      some (min 10 [1, 2, 3, 4].length) ∧
    (command samplePlatform freshSession genericArgs failingCmdEnv).pReplyData =
      some (List.replicate 10 7) := by
  decide

/-- C3 (amended): for a command code other than the four configuration codes, on
a session with a valid handle and a caller-supplied reply buffer of capacity
`C`, when the remote call is delivered with status `st` and response `resp`, the
call returns `st`; if `st` is zero the reply size becomes `min C R` and the reply
buffer holds the first `min C R` response bytes followed by its old contents; if
`st` is non-zero the reply size and the reply buffer are left as they were. -/
theorem c3_generic_command_reply (P : Platform) (s : EffectHalHidl) (a : CmdArgs)
    (env : CmdEnv) (C : Nat) (buf resp : List Nat) (st : Int) (hE : s.mEffect = true)
    (hcode : a.cmdCode ≠ EFFECT_CMD_SET_CONFIG ∧ a.cmdCode ≠ EFFECT_CMD_SET_CONFIG_REVERSE ∧
      a.cmdCode ≠ EFFECT_CMD_GET_CONFIG ∧ a.cmdCode ≠ EFFECT_CMD_GET_CONFIG_REVERSE)
    (hsize : a.replySize = some C) (hbuf : a.pReplyData = some buf)
    (hremote : env.command = some (st, resp)) :
    (command P s a env).status = st ∧
    (st = 0 →
      (command P s a env).replySize = some (min C resp.length) ∧
      ∃ out, (command P s a env).pReplyData = some out ∧
        out.take (min C resp.length) = resp.take (min C resp.length) ∧
        out.drop (min C resp.length) = buf.drop (min C resp.length)) ∧
    (st ≠ 0 →
      (command P s a env).replySize = some C ∧
      (command P s a env).pReplyData = some buf) := by
  obtain ⟨h1, h2, h3, h4⟩ := hcode
  by_cases hst : st = 0
  · subst hst
    have hn : (if resp.length < C then resp.length else C) = min C resp.length := by
      split <;> omega
    have hres : (command P s a env).status = 0 ∧
        (command P s a env).replySize = some (min C resp.length) ∧
        (command P s a env).pReplyData =
          if min C resp.length > 0 then some (memcpy buf resp (min C resp.length))
          else some buf := by
      simp [command, hE, h1, h2, h3, h4, hsize, hbuf, hremote, hn]
    obtain ⟨r1, r2, r3⟩ := hres
    refine ⟨r1, fun _ => ⟨r2, ?_⟩, fun hne => absurd rfl hne⟩
    rw [r3]
    by_cases hpos : min C resp.length > 0
    · refine ⟨memcpy buf resp (min C resp.length), by simp [hpos], ?_, ?_⟩
      · simp [memcpy, List.take_append_eq_append_take, List.length_take]
      · simp [memcpy, List.drop_append_eq_append_drop, List.length_take]
    · have hz : min C resp.length = 0 := by omega
      refine ⟨buf, by simp [hz], by simp [hz], by simp [hz]⟩
  · simp [command, hE, h1, h2, h3, h4, hsize, hbuf, hremote, hst]

/-- C3 (amended) at a zero status: 10 bytes offered, 4 bytes answered. -/
theorem c3_generic_command_reply_witness :
    (command samplePlatform freshSession genericArgs okCmdEnv).status = 0 ∧
    (command samplePlatform freshSession genericArgs okCmdEnv).replySize = some 4 ∧
    ∃ out, (command samplePlatform freshSession genericArgs okCmdEnv).pReplyData = some out ∧
      out.take 4 = [1, 2, 3, 4] ∧ out.drop 4 = List.replicate 6 7 :=
  ⟨(c3_generic_command_reply samplePlatform freshSession genericArgs okCmdEnv 10
      (List.replicate 10 7) [1, 2, 3, 4] 0 rfl (by decide) rfl rfl rfl).1,
    (c3_generic_command_reply samplePlatform freshSession genericArgs okCmdEnv 10
      (List.replicate 10 7) [1, 2, 3, 4] 0 rfl (by decide) rfl rfl rfl).2.1 rfl⟩

/-! ## C9: repeated close -/

/-- C9, as stated, fails: after a first `close` on a session with a valid
handle, a second `close` invokes the remote close again and returns its
translated result (`OK` here), not `NO_INIT`. -/
theorem c9_counterexample :
    (close samplePlatform freshSession (some .OK)).status = OK ∧
    (close samplePlatform (close samplePlatform freshSession (some .OK)).state
      (some .OK)).trace = [Event.close] ∧
    (close samplePlatform (close samplePlatform freshSession (some .OK)).state
      (some .OK)).status = OK ∧
    (close samplePlatform (close samplePlatform freshSession (some .OK)).state
      (some .OK)).status ≠ NO_INIT := by
  decide

/-- C9 (amended): `close` on a session with a valid remote handle leaves the
handle in place, so every later `close` invokes the remote close once more and
returns the translation of what the remote reports (`FAILED_TRANSACTION` when
the call is not delivered); `close` returns `NO_INIT` without a remote call
only on a session whose handle is absent. -/
theorem c9_close_repeats_remote_call (P : Platform) (s : EffectHalHidl)
    (first second : Option Result) (hE : s.mEffect = true) :
    (close P s first).state = s ∧
    (close P (close P s first).state second).trace = [Event.close] ∧
    (close P (close P s first).state second).status =
      (match second with
        | some r => P.analyzeResult r
        | none => FAILED_TRANSACTION) ∧
    (∀ t : EffectHalHidl, t.mEffect = false →
      (close P t second).status = NO_INIT ∧ (close P t second).trace = [] ∧
      (close P t second).state = t) := by
  have hs : (close P s first).state = s := by
    cases first <;> simp [close, hE]
  rw [hs]
  refine ⟨rfl, ?_, ?_, ?_⟩
  · cases second <;> simp [close, hE]
  · cases second <;> simp [close, hE]
  · intro t ht
    simp [close, ht]

/-- C9 (amended) at a session closed twice, the remote answering `OK` and then
`INVALID_STATE`. -/
theorem c9_close_repeats_remote_call_witness :
    freshSession.mEffect = true ∧
    (close samplePlatform freshSession (some .OK)).state = freshSession ∧
    (close samplePlatform (close samplePlatform freshSession (some .OK)).state
      (some .INVALID_STATE)).trace = [Event.close] ∧
    (close samplePlatform (close samplePlatform freshSession (some .OK)).state
      (some .INVALID_STATE)).status = NOT_ENOUGH_DATA :=
  ⟨rfl,
    (c9_close_repeats_remote_call samplePlatform freshSession (some .OK)
      (some .INVALID_STATE) rfl).1,
    (c9_close_repeats_remote_call samplePlatform freshSession (some .OK)
      (some .INVALID_STATE) rfl).2.1,
    (c9_close_repeats_remote_call samplePlatform freshSession (some .OK)
      (some .INVALID_STATE) rfl).2.2.1⟩

/-! ## C5: what a failed processing call leaves behind -/

/-- C5, as stated, fails: on a session whose dirty flag is set, a call whose
buffer push succeeds and whose wait then fails with `-22` returns `-22`, and the
dirty flag is clear afterwards although it was set before. -/
theorem c5_counterexample :
    (process samplePlatform dirtySession plainHeap waitFailEnv).outcome = .returned (-22) ∧
    dirtySession.mBuffersChanged = true ∧
    (process samplePlatform dirtySession plainHeap waitFailEnv).state.mBuffersChanged = false ∧
    (process samplePlatform dirtySession plainHeap waitFailEnv).state.mBuffersChanged ≠
      dirtySession.mBuffersChanged := by
  decide

/-- C5 (amended): a processing call (`processImpl` at either request bit, so both
`process` and `processReverse`), in particular one that returns a non-success
status, leaves the bound input and output buffers as they were; the dirty flag
is unchanged if the call ended before the handshake (precondition,
establishment or buffer-push failure: no release fence was issued), and it is
clear if the call ended in the handshake (wait failure or status read),
whatever it was before. The result translation is assumed to map only
`Result::OK` to `OK`. -/
theorem c5_failed_process_frame (P : Platform) (mqFlag : Nat) (s : EffectHalHidl) (h : Heap)
    (env : ProcEnv) (hP : ∀ r, P.analyzeResult r = OK → r = Result.OK) :
    (processImpl P mqFlag s h env).state.mInBuffer = s.mInBuffer ∧
    (processImpl P mqFlag s h env).state.mOutBuffer = s.mOutBuffer ∧
    (Event.fenceRelease ∉ (processImpl P mqFlag s h env).trace →
      (processImpl P mqFlag s h env).state.mBuffersChanged = s.mBuffersChanged) ∧
    (Event.fenceRelease ∈ (processImpl P mqFlag s h env).trace →
      (processImpl P mqFlag s h env).state.mBuffersChanged = false) := by
  obtain ⟨_, e2, e3, e4⟩ := establish_frame P s env
  obtain ⟨r2, r3, _, _, r6, r7⟩ := refresh_frame P (establish P s env).state h env
  have et := establish_no_fence P s env
  have rt := refresh_no_fence P (establish P s env).state h env
  have kt := handshake_fence P mqFlag (refresh P (establish P s env).state h env).state env
  unfold processImpl
  split_ifs with hpre he hr
  · simp
  · simp [e2, e3, e4, et]
  · simp [e2, e3, e4, r2, r3, r6 hr, et, rt]
  · simp [e2, e3, r2, r3, r7 hP (not_not.mp hr), et, rt, kt]

/-! ## C4: failed establishment -/

/-- C4, as stated, fails: after a first `process` whose setup call is not
delivered (`FAILED_TRANSACTION`), the next `process` issues the remote setup
call again and, the setup now succeeding, returns `OK`. -/
theorem c4_counterexample :
    (process samplePlatform freshSession plainHeap failPrepareEnv).outcome =
      .returned FAILED_TRANSACTION ∧
    Event.prepareForProcessing ∈
      (process samplePlatform
        (process samplePlatform freshSession plainHeap failPrepareEnv).state
        (process samplePlatform freshSession plainHeap failPrepareEnv).heap okEnv).trace ∧
    (process samplePlatform
      (process samplePlatform freshSession plainHeap failPrepareEnv).state
      (process samplePlatform freshSession plainHeap failPrepareEnv).heap okEnv).outcome =
      .returned OK := by
  decide

/-- C4 (amended): on a session with a valid handle, both buffers bound and no
channel yet, a processing call whose establishment fails returns the
establishment failure after exactly the one setup call and leaves the channel
absent; the next processing call (`process` or `processReverse`, any request
bit) issues the remote setup call again, exactly once and before anything else,
and returns the establishment failure if that attempt fails too. -/
theorem c4_establishment_retried (P : Platform) (mq1 mq2 : Nat) (s : EffectHalHidl)
    (h : Heap) (env1 env2 : ProcEnv) (hE : s.mEffect = true) (hin : s.mInBuffer ≠ 0)
    (hout : s.mOutBuffer ≠ 0) (hmq : s.mStatusMQ = false)
    (hfail : (prepareForProcessing P s env1.prepare).status ≠ OK) :
    (processImpl P mq1 s h env1).outcome =
      .returned (prepareForProcessing P s env1.prepare).status ∧
    (processImpl P mq1 s h env1).trace = [Event.prepareForProcessing] ∧
    (processImpl P mq1 s h env1).state.mStatusMQ = false ∧
    (∃ rest,
      (processImpl P mq2 (processImpl P mq1 s h env1).state (processImpl P mq1 s h env1).heap
        env2).trace = Event.prepareForProcessing :: rest ∧
      Event.prepareForProcessing ∉ rest) ∧
    ((prepareForProcessing P (processImpl P mq1 s h env1).state env2.prepare).status ≠ OK →
      (processImpl P mq2 (processImpl P mq1 s h env1).state (processImpl P mq1 s h env1).heap
        env2).outcome =
        .returned (prepareForProcessing P (processImpl P mq1 s h env1).state
          env2.prepare).status ∧
      (processImpl P mq2 (processImpl P mq1 s h env1).state (processImpl P mq1 s h env1).heap
        env2).state.mStatusMQ = false) := by
  obtain ⟨a1, a2, a3, a4⟩ := (processImpl_setup_first P mq1 s h env1 hE hin hout hmq).2 hfail
  obtain ⟨f1, f2, f3, _⟩ := prepare_frame P s env1.prepare
  have fq := prepare_failed_keeps_channel P s env1.prepare hfail
  rw [a3, a4]
  have hE1 : (prepareForProcessing P s env1.prepare).state.mEffect = true := by rw [f1, hE]
  have hin1 : (prepareForProcessing P s env1.prepare).state.mInBuffer ≠ 0 := by rw [f2]; exact hin
  have hout1 : (prepareForProcessing P s env1.prepare).state.mOutBuffer ≠ 0 := by
    rw [f3]; exact hout
  have hmq1 : (prepareForProcessing P s env1.prepare).state.mStatusMQ = false := by
    rw [fq, hmq]
  obtain ⟨b1, b2⟩ := processImpl_setup_first P mq2 _ h env2 hE1 hin1 hout1 hmq1
  refine ⟨a1, a2, hmq1, b1, ?_⟩
  intro hf2
  obtain ⟨c1, _, c3, _⟩ := b2 hf2
  refine ⟨c1, ?_⟩
  rw [c3, prepare_failed_keeps_channel P _ env2.prepare hf2, hmq1]

/-- C4 (amended) at a session whose setup call is not delivered twice in a row. -/
theorem c4_establishment_retried_witness :
    (process samplePlatform freshSession plainHeap failPrepareEnv).outcome =
      .returned FAILED_TRANSACTION ∧
    (process samplePlatform freshSession plainHeap failPrepareEnv).trace =
      [Event.prepareForProcessing] ∧
    (processReverse samplePlatform
      (process samplePlatform freshSession plainHeap failPrepareEnv).state
      (process samplePlatform freshSession plainHeap failPrepareEnv).heap
      failPrepareEnv).outcome = .returned FAILED_TRANSACTION :=
  ⟨(c4_establishment_retried samplePlatform REQUEST_PROCESS REQUEST_PROCESS_REVERSE
      freshSession plainHeap failPrepareEnv failPrepareEnv rfl (by decide) (by decide) rfl
      (by decide)).1,
    (c4_establishment_retried samplePlatform REQUEST_PROCESS REQUEST_PROCESS_REVERSE
      freshSession plainHeap failPrepareEnv failPrepareEnv rfl (by decide) (by decide) rfl
      (by decide)).2.1,
    ((c4_establishment_retried samplePlatform REQUEST_PROCESS REQUEST_PROCESS_REVERSE
      freshSession plainHeap failPrepareEnv failPrepareEnv rfl (by decide) (by decide) rfl
      (by decide)).2.2.2.2 (by decide)).1⟩

/-- Only `Result::OK` is translated to `OK` by the translation of `samplePlatform`. -/
theorem sample_analyzeResult_sane :
    ∀ r, samplePlatform.analyzeResult r = OK → r = Result.OK := by
  intro r hr
  cases r
  · rfl
  all_goals exact absurd hr (by decide)

/-- C5 (amended) at the failing call of the counterexample (dirty flag cleared by
the successful push) and at a call rejected by the precondition check. -/
theorem c5_failed_process_frame_witness :
    (∀ r, samplePlatform.analyzeResult r = OK → r = Result.OK) ∧
    (processImpl samplePlatform REQUEST_PROCESS dirtySession plainHeap
      waitFailEnv).state.mInBuffer = dirtySession.mInBuffer ∧
    (processImpl samplePlatform REQUEST_PROCESS dirtySession plainHeap
      waitFailEnv).state.mOutBuffer = dirtySession.mOutBuffer ∧
    (processImpl samplePlatform REQUEST_PROCESS dirtySession plainHeap
      waitFailEnv).state.mBuffersChanged = false :=
  ⟨sample_analyzeResult_sane,
    (c5_failed_process_frame samplePlatform REQUEST_PROCESS dirtySession plainHeap waitFailEnv
      sample_analyzeResult_sane).1,
    (c5_failed_process_frame samplePlatform REQUEST_PROCESS dirtySession plainHeap waitFailEnv
      sample_analyzeResult_sane).2.1,
    (c5_failed_process_frame samplePlatform REQUEST_PROCESS dirtySession plainHeap waitFailEnv
      sample_analyzeResult_sane).2.2.2 (by decide)⟩

/-! ## C6: rebinding the same regions -/

/-- C6: from a session whose dirty flag is clear and whose buffers are both
bound, along any finite sequence of `setInBuffer` / `setOutBuffer` calls that
each pass a buffer of the region bound at that moment, every call returns `OK`
and the dirty flag is clear after every call of the sequence; and if neither
finally bound buffer has a pending frame-count change, `needToResetBuffers`
answers false and the next processing call (`process` or `processReverse`, any
request bit, any behaviour of the remote side) issues no `setProcessBuffers`. -/
theorem c6_same_region_no_push (P : Platform) (mqFlag : Nat) (s : EffectHalHidl) (h : Heap)
    (calls : List BufCall) (env : ProcEnv) (hd : s.mBuffersChanged = false)
    (hin : s.mInBuffer ≠ 0) (hout : s.mOutBuffer ≠ 0)
    (hsame : allSameRegion h s calls = true) :
    (runBufCalls h s calls).1 = List.replicate calls.length OK ∧
    (∀ n, (runBufCalls h s (calls.take n)).2.mBuffersChanged = false) ∧
    ((h (runBufCalls h s calls).2.mInBuffer).frameCountChanged = false →
      (h (runBufCalls h s calls).2.mOutBuffer).frameCountChanged = false →
      (needToResetBuffers (runBufCalls h s calls).2 h).1 = false ∧
      ∀ a b, Event.setProcessBuffers a b ∉
        (processImpl P mqFlag (runBufCalls h s calls).2 h env).trace) := by
  obtain ⟨a1, a2, _, _, _, _⟩ := runBufCalls_inv h calls s hd hin hout hsame
  refine ⟨a1, ?_, ?_⟩
  · intro n
    exact (runBufCalls_inv h (calls.take n) s hd hin hout
      (allSameRegion_take h calls s n hsame)).2.1
  · intro hfi hfo
    have hn : (needToResetBuffers (runBufCalls h s calls).2 h).1 = false := by
      have hfo2 : (Function.update h (runBufCalls h s calls).2.mInBuffer
          { h (runBufCalls h s calls).2.mInBuffer with frameCountChanged := false }
          (runBufCalls h s calls).2.mOutBuffer).frameCountChanged = false := by
        by_cases heq : (runBufCalls h s calls).2.mOutBuffer = (runBufCalls h s calls).2.mInBuffer
        · rw [heq]; simp
        · rw [Function.update_noteq heq]; exact hfo
      simp [needToResetBuffers, checkFrameCountChange, a2, hfi, hfo2]
    exact ⟨hn, processImpl_no_push P mqFlag _ h env hn⟩

/-- C6 at a steady session: the input buffer is rebound to a second object
wrapping the same region, the output buffer to itself, and the next `process`
pushes nothing. -/
theorem c6_same_region_no_push_witness :
    allSameRegion aliasHeap steadySession [.setIn 3, .setOut 2, .setIn 1] = true ∧
    (runBufCalls aliasHeap steadySession [.setIn 3, .setOut 2, .setIn 1]).1 = [OK, OK, OK] ∧
    (needToResetBuffers
      (runBufCalls aliasHeap steadySession [.setIn 3, .setOut 2, .setIn 1]).2 aliasHeap).1 =
      false ∧
    Event.setProcessBuffers 1 2 ∉
      (processImpl samplePlatform REQUEST_PROCESS
        (runBufCalls aliasHeap steadySession [.setIn 3, .setOut 2, .setIn 1]).2
        aliasHeap okEnv).trace :=
  ⟨by decide,
    (c6_same_region_no_push samplePlatform REQUEST_PROCESS steadySession aliasHeap
      [.setIn 3, .setOut 2, .setIn 1] okEnv rfl (by decide) (by decide) (by decide)).1,
    ((c6_same_region_no_push samplePlatform REQUEST_PROCESS steadySession aliasHeap
      [.setIn 3, .setOut 2, .setIn 1] okEnv rfl (by decide) (by decide) (by decide)).2.2
      (by decide) (by decide)).1,
    ((c6_same_region_no_push samplePlatform REQUEST_PROCESS steadySession aliasHeap
      [.setIn 3, .setOut 2, .setIn 1] okEnv rfl (by decide) (by decide) (by decide)).2.2
      (by decide) (by decide)).2 1 2⟩

/-! ## C7: frame-count changes -/

/-- C7 evaluated on the code. When the frame count of the bound input buffer
changes while the dirty flag is set, the first `process` call answers "needs
refresh" through the dirty flag alone and pushes once, the pending change stays
in the buffer, so the second call (same regions, same frame counts) answers
"needs refresh" again and pushes a second time; only the third call pushes
nothing. With the dirty flag clear at the moment of the change the same change
costs one push and the second call pushes nothing. -/
theorem c7_dirty_change_pushes_twice :
    ((needToResetBuffers dirtySession resizedHeap).1 = true ∧
      dirtyRun1.outcome = .returned OK ∧
      dirtyRun1.trace.count (Event.setProcessBuffers 1 2) = 1 ∧
      (dirtyRun1.heap 1).frameCountChanged = true) ∧
    ((needToResetBuffers dirtyRun1.state dirtyRun1.heap).1 = true ∧
      dirtyRun2.outcome = .returned OK ∧
      dirtyRun2.trace.count (Event.setProcessBuffers 1 2) = 1) ∧
    ((needToResetBuffers dirtyRun2.state dirtyRun2.heap).1 = false ∧
      dirtyRun3.trace.count (Event.setProcessBuffers 1 2) = 0) ∧
    ((needToResetBuffers steadySession resizedHeap).1 = true ∧
      steadyRun1.trace.count (Event.setProcessBuffers 1 2) = 1 ∧
      (needToResetBuffers steadyRun1.state steadyRun1.heap).1 = false ∧
      steadyRun2.trace.count (Event.setProcessBuffers 1 2) = 0) := by
  decide

/-! ## C8: one status read per completed cycle -/

/-- C10: `process` is `processImpl` at the forward request bit and
`processReverse` is `processImpl` at the reverse request bit; and in every
`processImpl` call that passes the precondition step (handle valid, both
buffers bound), the establishment step (`establish` yields `OK`) and the
buffer-refresh step (`refresh` yields `OK`), the trace is
`pre ++ fenceRelease :: wake mqFlag :: post` where `pre` holds no wake and no
wait, `post` holds no wake and starts with a wait: the request bit passed in is
raised exactly once, before the first wait. For every scripted run of wait
results made of waits that return with the completion bit clear and `-EAGAIN`
or `-EINTR`, followed by a wait that returns with the completion bit clear and
another code, `post` is one wait per scripted result (each transient return is
followed by the next wait, with no wake in between), the call returns that last
wait code unchanged and the status queue is never read; when all scripted results
are transient the call is still blocked in a further wait. The session is assumed
to have an event flag whenever it has a status queue, and the result translation
to map only `Result::OK` to `OK`. -/
theorem c10_wake_once_then_wait (P : Platform) (mqFlag : Nat) (s : EffectHalHidl) (h : Heap)
    (env : ProcEnv) (hP : ∀ r, P.analyzeResult r = OK → r = Result.OK)
    (hwf : s.mStatusMQ = true → s.mEfGroup = true)
    (hE : s.mEffect = true) (hin : s.mInBuffer ≠ 0) (hout : s.mOutBuffer ≠ 0)
    (hest : (establish P s env).status = OK)
    (href : (refresh P (establish P s env).state h env).status = OK) :
    (process P s h env = processImpl P REQUEST_PROCESS s h env ∧
      processReverse P s h env = processImpl P REQUEST_PROCESS_REVERSE s h env) ∧
    ∃ pre post,
      (processImpl P mqFlag s h env).trace =
        pre ++ Event.fenceRelease :: Event.wake mqFlag :: post ∧
      (∀ b, Event.wake b ∉ pre ∧ Event.wait b ∉ pre) ∧
      (∀ b, Event.wake b ∉ post) ∧
      (∃ rest, post = Event.wait DONE_PROCESSING :: rest) ∧
      (∀ ws w rest, env.waits = ws ++ w :: rest →
        (∀ x ∈ ws, x.efState &&& DONE_PROCESSING = 0 ∧ (x.ret = -EAGAIN ∨ x.ret = -EINTR)) →
        w.efState &&& DONE_PROCESSING = 0 → w.ret ≠ -EAGAIN → w.ret ≠ -EINTR →
        (processImpl P mqFlag s h env).outcome = .returned w.ret ∧
        post = waitTrace (ws ++ [w]) ∧
        Event.mqRead ∉ (processImpl P mqFlag s h env).trace) ∧
      ((∀ x ∈ env.waits,
          x.efState &&& DONE_PROCESSING = 0 ∧ (x.ret = -EAGAIN ∨ x.ret = -EINTR)) →
        (processImpl P mqFlag s h env).outcome = .blocked ∧
        post = waitTrace env.waits ++ [Event.wait DONE_PROCESSING]) := by
  have hpass : Event.fenceRelease ∈ (processImpl P mqFlag s h env).trace :=
    (processImpl_fence_iff P mqFlag s h env hP hwf).2 ⟨hE, hin, hout, hest, href⟩
  refine ⟨⟨rfl, rfl⟩, ?_⟩
  obtain ⟨pre, hpre, hcase⟩ := processImpl_shape P mqFlag s h env hP hwf
  have hpre_not : ∀ e ∈ pre, e ≠ Event.fenceRelease ∧ e ≠ Event.mqRead ∧
      (∀ b, e ≠ Event.wake b) ∧ (∀ b, e ≠ Event.wait b) := by
    intro e he
    rcases hpre e he with h1 | ⟨a, b, h1⟩ <;> subst h1 <;> simp
  rcases hcase with ⟨ht, _⟩ | ⟨ht, ho⟩
  · rw [ht] at hpass
    exact absurd rfl (hpre_not _ hpass).1
  · refine ⟨pre, (waitLoop P true env.status env.waits).2, ht, ?_, ?_, ?_, ?_, ?_⟩
    · intro b
      exact ⟨fun hm => (hpre_not _ hm).2.2.1 b rfl, fun hm => (hpre_not _ hm).2.2.2 b rfl⟩
    · intro b hm
      rcases waitLoop_events P _ _ _ _ hm with h1 | ⟨_, _, h1⟩ | h1 | h1 <;> cases h1
    · exact waitLoop_head P true env.status env.waits
    · intro ws w rest hws htr hd hr1 hr2
      have hloop : waitLoop P true env.status env.waits =
          (.returned w.ret, waitTrace (ws ++ [w])) := by
        rw [hws, waitLoop_transient_prefix P true env.status ws (w :: rest) htr,
          waitLoop_cons_stop P true env.status w rest hd hr1 hr2, waitTrace_append]
        rfl
      refine ⟨by rw [ho, hloop], by rw [hloop], ?_⟩
      rw [ht, hloop]
      intro hm
      simp only [List.mem_append, List.mem_cons] at hm
      rcases hm with hm | hm | hm | hm
      · exact (hpre_not _ hm).2.1 rfl
      · cases hm
      · cases hm
      · exact (waitTrace_no_wake_no_read _).2 hm
    · intro hall
      have hloop : waitLoop P true env.status env.waits =
          (.blocked, waitTrace env.waits ++ [Event.wait DONE_PROCESSING]) := by
        have h0 := waitLoop_transient_prefix P true env.status env.waits [] hall
        rw [List.append_nil] at h0
        rw [h0]
        rfl
      exact ⟨by rw [ho, hloop], by rw [hloop]⟩

/-- C10 at a steady session whose wait returns `-EAGAIN`, then `-EINTR`, then fails
with `-22`: the three steps pass, and both `process` and `processReverse` raise
their own request bit once, wait three times, read no status and return `-22`. -/
theorem c10_wake_once_then_wait_witness :
    (∀ r, samplePlatform.analyzeResult r = OK → r = Result.OK) ∧
    (steadySession.mEffect = true ∧ steadySession.mInBuffer ≠ 0 ∧
      steadySession.mOutBuffer ≠ 0) ∧
    (establish samplePlatform steadySession retryThenFailEnv).status = OK ∧
    (refresh samplePlatform (establish samplePlatform steadySession retryThenFailEnv).state
      plainHeap retryThenFailEnv).status = OK ∧
    (process samplePlatform steadySession plainHeap retryThenFailEnv).trace =
      [Event.fenceRelease, Event.wake 2, Event.wait 1, Event.waitReturn (-11) 0,
        Event.wait 1, Event.waitReturn (-4) 0, Event.wait 1, Event.waitReturn (-22) 0] ∧
    (processReverse samplePlatform steadySession plainHeap retryThenFailEnv).trace =
      [Event.fenceRelease, Event.wake 4, Event.wait 1, Event.waitReturn (-11) 0,
        Event.wait 1, Event.waitReturn (-4) 0, Event.wait 1, Event.waitReturn (-22) 0] ∧
    (∃ pre post,
      (processImpl samplePlatform REQUEST_PROCESS steadySession plainHeap
        retryThenFailEnv).trace =
        pre ++ Event.fenceRelease :: Event.wake REQUEST_PROCESS :: post ∧
      (∀ b, Event.wake b ∉ post) ∧
      (processImpl samplePlatform REQUEST_PROCESS steadySession plainHeap
        retryThenFailEnv).outcome = .returned (-22)) ∧
    (∃ pre post,
      (processImpl samplePlatform REQUEST_PROCESS_REVERSE steadySession plainHeap
        retryThenFailEnv).trace =
        pre ++ Event.fenceRelease :: Event.wake REQUEST_PROCESS_REVERSE :: post ∧
      (∀ b, Event.wake b ∉ post) ∧
      (processImpl samplePlatform REQUEST_PROCESS_REVERSE steadySession plainHeap
        retryThenFailEnv).outcome = .returned (-22)) :=
  ⟨sample_analyzeResult_sane, by decide, by decide, by decide, by decide, by decide,
    match (c10_wake_once_then_wait samplePlatform REQUEST_PROCESS steadySession plainHeap
      retryThenFailEnv sample_analyzeResult_sane (fun _ => rfl) rfl (by decide) (by decide)
      (by decide) (by decide)).2 with
    | ⟨pre, post, h1, _, h3, _, h5, _⟩ =>
      ⟨pre, post, h1, h3,
        (h5 [⟨-11, 0⟩, ⟨-4, 0⟩] ⟨-22, 0⟩ [] rfl (by decide) (by decide) (by decide)
          (by decide)).1⟩,
    match (c10_wake_once_then_wait samplePlatform REQUEST_PROCESS_REVERSE steadySession
      plainHeap retryThenFailEnv sample_analyzeResult_sane (fun _ => rfl) rfl (by decide)
      (by decide) (by decide) (by decide)).2 with
    | ⟨pre, post, h1, _, h3, _, h5, _⟩ =>
      ⟨pre, post, h1, h3,
        (h5 [⟨-11, 0⟩, ⟨-4, 0⟩] ⟨-22, 0⟩ [] rfl (by decide) (by decide) (by decide)
          (by decide)).1⟩⟩

end AudioHal
